import Mathlib

/-!
Shallow embedding of the "Water Conservation Game" engine of
JalRakshak-AI (src/unnamed/part_000, lines ~480-745).

The engine's mutable global `gameState` becomes the structure `GameState`;
each JS function (`startWaterGame`, `pauseWaterGame`, `stopWaterGame`,
`gameLoop`, `spawnWaterDrop`, `spawnWaste`, `updateDrops`, `updateWaste`,
`handleGameClick`, `endWaterGame`) becomes a pure state transformer.

Modelling conventions:
- JS numbers are embedded as `ℚ` for coordinates/sizes/speeds (every value
  the engine produces or compares there is exact rational arithmetic on the
  random draws) and `ℤ` for the integer accumulators `waterLevel`, `score`,
  `timeLeft` (all their mutations are integer steps).
- `Math.random()` draws are oracle parameters: each spawn consumes four
  rationals in `[0,1)`, and each `gameLoop` tick carries two optional spawn
  oracles standing for the two Bernoulli trials `Math.random() < 0.1` /
  `Math.random() < 0.05`.
- The canvas dimensions `gameState.canvas.width/height` are explicit
  parameters `W`, `H`.
- `setInterval`/`clearInterval` scheduling state: `fastArmed` models whether
  the interval stored in `gameState.gameLoop` is live; `slowArmed` models
  whether the countdown timer created by the most recent `startWaterGame`
  (the local `timer` variable) is still scheduled.
- `ended` is a ghost flag recording that `endWaterGame` ran (it posts the
  terminal "Game Over" chat message); it distinguishes the spec's Idle and
  Ended statuses, which the raw flags alone cannot.
- DOM-only effects (button labels/disabling, canvas drawing, chat messages)
  are not part of the state.
- `handleGameClick` compares `Math.sqrt(dx*dx + dy*dy) <= size`; over a
  nonnegative radicand this is equivalent to `0 ≤ size ∧ dx^2 + dy^2 ≤ size^2`,
  which is how the circular hit test is embedded (avoiding `Real.sqrt`,
  which would leave `ℚ`).
-/

/-- A water drop (the spec's Collectible), as pushed by `spawnWaterDrop`. -/
structure Drop where
  x : ℚ
  y : ℚ
  size : ℚ
  speed : ℚ
  value : ℤ
deriving Repr, DecidableEq

/-- A waste item (the spec's Hazard), as pushed by `spawnWaste`. -/
structure Waste where
  x : ℚ
  y : ℚ
  size : ℚ
  speed : ℚ
  damage : ℤ
deriving Repr, DecidableEq

/-- The engine's global `gameState` object (logic-relevant fields). -/
structure GameState where
  isRunning : Bool
  isPaused : Bool
  waterLevel : ℤ
  score : ℤ
  timeLeft : ℤ
  drops : List Drop
  waste : List Waste
  fastArmed : Bool
  slowArmed : Bool
  ended : Bool
deriving Repr, DecidableEq

/-- The initial `gameState` literal (part_000 line 480): not running, full
water, no entities, no timers armed, no game-over announced. -/
def initState : GameState :=
  { isRunning := false, isPaused := false, waterLevel := 100, score := 0,
    timeLeft := 60, drops := [], waste := [], fastArmed := false,
    slowArmed := false, ended := false }

/-- The spec's session `status` variant, derived from the engine flags. -/
inductive Status where
  | idle
  | running
  | paused
  | ended
deriving Repr, DecidableEq

/-- Classify a state: `isRunning` splits Running/Paused; otherwise the ghost
`ended` flag splits Ended (after `endWaterGame`) from Idle. -/
def status (s : GameState) : Status :=
  if s.isRunning then (if s.isPaused then .paused else .running)
  else if s.ended then .ended else .idle

/-- Four `Math.random()` draws consumed by one spawn call. -/
structure SpawnRand where
  r1 : ℚ
  r2 : ℚ
  r3 : ℚ
  r4 : ℚ
deriving Repr, DecidableEq

/-- `Math.random()` returns values in `[0, 1)`. -/
def SpawnRand.valid (r : SpawnRand) : Bool :=
  decide (0 ≤ r.r1 ∧ r.r1 < 1 ∧ 0 ≤ r.r2 ∧ r.r2 < 1 ∧
          0 ≤ r.r3 ∧ r.r3 < 1 ∧ 0 ≤ r.r4 ∧ r.r4 < 1)

/-- `spawnWaterDrop` (part_000 lines 611-619): pushes
`{x: rnd*(W-20), y: -20, size: 15+rnd*10, speed: 2+rnd*3,
  value: 5+floor(rnd*10)}`. -/
def spawnWaterDrop (W : ℚ) (r : SpawnRand) : Drop :=
  { x := r.r1 * (W - 20), y := -20, size := 15 + r.r2 * 10,
    speed := 2 + r.r3 * 3, value := 5 + (r.r4 * 10).floor }

/-- `spawnWaste` (part_000 lines 621-629): pushes
`{x: rnd*(W-30), y: -30, size: 20+rnd*15, speed: 1+rnd*2,
  damage: 10+floor(rnd*15)}`. -/
def spawnWaste (W : ℚ) (r : SpawnRand) : Waste :=
  { x := r.r1 * (W - 30), y := -30, size := 20 + r.r2 * 15,
    speed := 1 + r.r3 * 2, damage := 10 + (r.r4 * 15).floor }

/-- One `gameLoop` tick's random draws: `dropSpawn = some r` stands for the
trial `Math.random() < 0.1` succeeding (with `r` the spawn's further draws),
`none` for it failing; likewise `wasteSpawn` for `Math.random() < 0.05`. -/
structure TickRand where
  dropSpawn : Option SpawnRand
  wasteSpawn : Option SpawnRand
deriving Repr, DecidableEq

/-- All draws of a tick lie in `[0,1)`. -/
def TickRand.valid (o : TickRand) : Bool :=
  (match o.dropSpawn with | some r => r.valid | none => true) &&
  (match o.wasteSpawn with | some r => r.valid | none => true)

/-- The body of the backward `for` loop of `updateDrops`: each drop gets
`y += speed`, and a drop with `y > H` is spliced out, counted so the caller
can apply `waterLevel -= 2` per removal. (The JS loop runs from the last
index to the first, touching each element exactly once; element order among
survivors is preserved, which this front-to-back recursion mirrors.) -/
def processDrops (H : ℚ) : List Drop → List Drop × ℕ
  | [] => ([], 0)
  | d :: rest =>
    let d2 : Drop := { d with y := d.y + d.speed }
    let p := processDrops H rest
    if H < d2.y then (p.1, p.2 + 1) else (d2 :: p.1, p.2)

/-- `updateDrops` (part_000 lines 631-641): move every drop down by its
speed; a drop past the bottom (`y > canvas.height`) is removed and costs
`waterLevel -= 2` — with no clamping. -/
def updateDrops (H : ℚ) (s : GameState) : GameState :=
  let p := processDrops H s.drops
  { s with drops := p.1, waterLevel := s.waterLevel - 2 * (p.2 : ℤ) }

/-- The body of the backward `for` loop of `updateWaste`: `y += speed`,
splice out past the bottom, no side effect. -/
def processWaste (H : ℚ) : List Waste → List Waste
  | [] => []
  | w :: rest =>
    let w2 : Waste := { w with y := w.y + w.speed }
    let p := processWaste H rest
    if H < w2.y then p else w2 :: p

/-- `updateWaste` (part_000 lines 643-652): move waste; off-screen waste is
discarded with no effect on `waterLevel` or `score`. -/
def updateWaste (H : ℚ) (s : GameState) : GameState :=
  { s with waste := processWaste H s.waste }

/-- `gameLoop` body (part_000 lines 593-609): guarded by
`!isRunning || isPaused`; then possibly one drop spawn, possibly one waste
spawn (pushed at the end of the arrays), then `updateDrops`, `updateWaste`.
(Canvas clearing and `drawGame` are presentation only.) -/
def gameLoop (W H : ℚ) (o : TickRand) (s : GameState) : GameState :=
  if !s.isRunning || s.isPaused then s
  else
    let s1 := match o.dropSpawn with
      | some r => { s with drops := s.drops ++ [spawnWaterDrop W r] }
      | none => s
    let s2 := match o.wasteSpawn with
      | some r => { s1 with waste := s1.waste ++ [spawnWaste W r] }
      | none => s1
    updateWaste H (updateDrops H s2)

/-- The circular hit test of `handleGameClick` on a drop:
`Math.sqrt((px-x)^2 + (py-y)^2) <= size`, embedded in its squared form
(equivalent since the radicand is nonnegative). -/
def hitDrop (px py : ℚ) (d : Drop) : Bool :=
  decide (0 ≤ d.size ∧ (px - d.x) ^ 2 + (py - d.y) ^ 2 ≤ d.size ^ 2)

/-- The axis-aligned square hit test of `handleGameClick` on a waste item:
`px >= x && px <= x+size && py >= y && py <= y+size`. -/
def hitWaste (px py : ℚ) (w : Waste) : Bool :=
  decide (w.x ≤ px ∧ px ≤ w.x + w.size ∧ w.y ≤ py ∧ py ≤ w.y + w.size)

/-- Reverse-insertion-order scan: the JS loops
`for (let i = arr.length - 1; i >= 0; i--)` with early `return` pick the
LAST element of the array satisfying the test. Returns that element and the
array with it spliced out. -/
def findFromEnd {α : Type} (hit : α → Bool) : List α → Option (α × List α)
  | [] => none
  | a :: rest =>
    match findFromEnd hit rest with
    | some (h, rest2) => some (h, a :: rest2)
    | none => if hit a then some (a, rest) else none

/-- `handleGameClick` (part_000 lines 698-727): guarded by
`!isRunning || isPaused`; scans drops from most recent, on a circular hit
does `score += value; waterLevel = Math.min(100, waterLevel + value)`,
splices the drop out and returns; otherwise scans waste from most recent,
on a square hit does `waterLevel -= damage` (no clamp), splices out,
returns; otherwise no effect. -/
def handleGameClick (px py : ℚ) (s : GameState) : GameState :=
  if !s.isRunning || s.isPaused then s
  else
    match findFromEnd (hitDrop px py) s.drops with
    | some (d, ds) =>
      { s with score := s.score + d.value,
               waterLevel := min 100 (s.waterLevel + d.value), drops := ds }
    | none =>
      match findFromEnd (hitWaste px py) s.waste with
      | some (w, ws) =>
        { s with waterLevel := s.waterLevel - w.damage, waste := ws }
      | none => s

/-- `startWaterGame` (part_000 lines 537-566): no-op if already running
(also covers Paused, whose `isRunning` stays true); otherwise resets all
session fields, arms the fast `setInterval(gameLoop, 50)` and creates a new
slow 1000 ms countdown timer. -/
def startWaterGame (s : GameState) : GameState :=
  if s.isRunning then s
  else
    { s with isRunning := true, isPaused := false, waterLevel := 100,
             score := 0, timeLeft := 60, drops := [], waste := [],
             fastArmed := true, slowArmed := true }

/-- `pauseWaterGame` (part_000 lines 569-573): unconditionally
`isPaused = !isPaused` (plus a button label change, presentation only). -/
def pauseWaterGame (s : GameState) : GameState :=
  { s with isPaused := !s.isPaused }

/-- `stopWaterGame` (part_000 lines 575-591): clears the running/paused
flags and `clearInterval(gameState.gameLoop)` — the fast trigger. The slow
countdown timer is a local variable of `startWaterGame` and is NOT cleared
here. Ghost: a stop without a game-over announcement returns the session to
the spec's Idle status. -/
def stopWaterGame (s : GameState) : GameState :=
  { s with isRunning := false, isPaused := false, fastArmed := false,
           ended := false }

/-- `endWaterGame` (part_000 lines 739-742): `stopWaterGame()` then the
"Game Over" chat message — recorded in the ghost `ended` flag. -/
def endWaterGame (s : GameState) : GameState :=
  { stopWaterGame s with ended := true }

/-- The body of the slow countdown timer created by `startWaterGame`
(part_000 lines 554-564): guarded by `!isRunning || isPaused`; then
`timeLeft--`; when the new value is `<= 0`, `clearInterval(timer)` (the
slow trigger disarms itself) and `endWaterGame()`. -/
def slowTickBody (s : GameState) : GameState :=
  if !s.isRunning || s.isPaused then s
  else
    let s1 := { s with timeLeft := s.timeLeft - 1 }
    if s1.timeLeft ≤ 0 then endWaterGame { s1 with slowArmed := false }
    else s1

/-- Reachable session states: from the initial literal, via the Start,
PauseToggle, Stop/Close commands, fast ticks (only while the fast interval
is armed, with in-range random draws), slow ticks (only while the countdown
timer is scheduled), and pointer interactions. -/
inductive Reachable (W H : ℚ) : GameState → Prop where
  | init : Reachable W H initState
  | start {s} : Reachable W H s → Reachable W H (startWaterGame s)
  | pause {s} : Reachable W H s → Reachable W H (pauseWaterGame s)
  | stop {s} : Reachable W H s → Reachable W H (stopWaterGame s)
  | fast {s} (o : TickRand) : Reachable W H s → s.fastArmed = true →
      o.valid = true → Reachable W H (gameLoop W H o s)
  | slow {s} : Reachable W H s → s.slowArmed = true →
      Reachable W H (slowTickBody s)
  | click {s} (px py : ℚ) : Reachable W H s →
      Reachable W H (handleGameClick px py s)

/-- An element of an interleaved schedule: one fast `gameLoop` tick (with
its random draws) or one slow countdown tick. -/
inductive GTick where
  | fastT (o : TickRand)
  | slowT
deriving Repr, DecidableEq

/-- Run a sequence of fast/slow tick bodies, front to back. -/
def applyTicks (W H : ℚ) : List GTick → GameState → GameState
  | [], s => s
  | GTick.fastT o :: ts, s => applyTicks W H ts (gameLoop W H o s)
  | GTick.slowT :: ts, s => applyTicks W H ts (slowTickBody s)

/-- Tick randomness used in the reachability trace below: no drop spawn, one
waste spawn with all four `Math.random()` draws equal to 0 (giving a hazard
at x = 0, y = -30, size 20, speed 1, damage 10). -/
def c1Oracle : TickRand := { dropSpawn := none, wasteSpawn := some ⟨0, 0, 0, 0⟩ }

/-- A running session state with water level `v`, no entities, both timers
armed — the shape the trace below returns to after every spawn-and-click
round. -/
def c1Run (v : ℤ) : GameState :=
  { isRunning := true, isPaused := false, waterLevel := v, score := 0,
    timeLeft := 60, drops := [], waste := [], fastArmed := true,
    slowArmed := true, ended := false }

/-- A running session holding a single drop of value 8 and size 15 centred
at (50, 50), with water level 50. -/
def c5State : GameState :=
  { isRunning := true, isPaused := false, waterLevel := 50, score := 0,
    timeLeft := 60, drops := [⟨50, 50, 15, 2, 8⟩], waste := [],
    fastArmed := true, slowArmed := true, ended := false }

/-- A running session holding a single drop of value 8 and size 15 centred
at (50, 50), with water level 50 (collect-scenario witness state). -/
def c7State : GameState :=
  { isRunning := true, isPaused := false, waterLevel := 50, score := 0,
    timeLeft := 60, drops := [⟨50, 50, 15, 2, 8⟩], waste := [],
    fastArmed := true, slowArmed := true, ended := false }

/-! ## Helper lemmas -/

/-- Batteries' executable `Rat.floor` agrees with Mathlib's `⌊·⌋`. -/
theorem ratFloor_eq_intFloor (q : ℚ) : q.floor = ⌊q⌋ := by
  rw [Rat.floor_def', Rat.floor_def]

/-- A scan that found nothing: no element passes the test. -/
theorem findFromEnd_none {α : Type} (hit : α → Bool) :
    ∀ l : List α, findFromEnd hit l = none → ∀ b ∈ l, hit b = false := by
  intro l
  induction l with
  | nil => intro _ b hb; cases hb
  | cons a rest ih =>
    intro h b hb
    rcases hfr : findFromEnd hit rest with _ | ⟨h0, r2⟩
    · rw [findFromEnd, hfr] at h
      by_cases ha : hit a = true
      · simp [ha] at h
      · rcases List.mem_cons.mp hb with hb | hb
        · simpa [hb] using ha
        · exact ih hfr b hb
    · rw [findFromEnd, hfr] at h
      cases h

/-- A successful reverse scan splits the list around the hit element: the
hit is the last element passing the test, everything after it fails the
test, and the returned list is the original with the hit spliced out. -/
theorem findFromEnd_some {α : Type} (hit : α → Bool) :
    ∀ (l : List α) (a : α) (r : List α), findFromEnd hit l = some (a, r) →
      ∃ l₁ l₂, l = l₁ ++ a :: l₂ ∧ r = l₁ ++ l₂ ∧ hit a = true ∧
        ∀ b ∈ l₂, hit b = false := by
  intro l
  induction l with
  | nil => intro a r h; cases h
  | cons x rest ih =>
    intro a r h
    rcases hfr : findFromEnd hit rest with _ | ⟨h0, r2⟩
    · rw [findFromEnd, hfr] at h
      by_cases hx : hit x = true
      · simp only [hx, if_true, Option.some.injEq, Prod.mk.injEq] at h
        obtain ⟨ha, hr⟩ := h
        refine ⟨[], rest, by simp [ha.symm], by simp [hr.symm], ha ▸ hx, ?_⟩
        exact findFromEnd_none hit rest hfr
      · simp [hx] at h
    · rw [findFromEnd, hfr] at h
      simp only [Option.some.injEq, Prod.mk.injEq] at h
      obtain ⟨ha, hr⟩ := h
      obtain ⟨l₁, l₂, hl, hr2, hhit, hfail⟩ := ih h0 r2 hfr
      exact ⟨x :: l₁, l₂, by simp [hl, ha.symm], by simp [hr.symm, hr2], ha ▸ hhit, hfail⟩

/-- Scanning a list whose last element passes the test finds exactly that
element (the reverse scan starts at the end of the array). -/
theorem findFromEnd_append_last {α : Type} (hit : α → Bool) (l : List α)
    (d : α) (hd : hit d = true) : findFromEnd hit (l ++ [d]) = some (d, l) := by
  induction l with
  | nil => simp [findFromEnd, hd]
  | cons x xs ih => simp [findFromEnd, ih]

/-- Closed form of the `updateDrops` loop: survivors are the moved drops
still on screen (order preserved), and the removal count is the number of
drops moved past the bottom. -/
theorem processDrops_eq (H : ℚ) (l : List Drop) :
    processDrops H l =
      ((l.map fun d => { d with y := d.y + d.speed }).filter
         fun d => decide (d.y ≤ H),
       l.countP fun d => decide (H < d.y + d.speed)) := by
  induction l with
  | nil => rfl
  | cons d rest ih =>
    simp only [processDrops, ih, List.map_cons, List.filter_cons, List.countP_cons]
    by_cases hc : H < d.y + d.speed
    · simp [hc, not_le.mpr hc]
    · simp [hc, not_lt.mp hc]

/-- Closed form of the `updateWaste` loop. -/
theorem processWaste_eq (H : ℚ) (l : List Waste) :
    processWaste H l =
      (l.map fun w => { w with y := w.y + w.speed }).filter
        fun w => decide (w.y ≤ H) := by
  induction l with
  | nil => rfl
  | cons w rest ih =>
    simp only [processWaste, ih, List.map_cons, List.filter_cons]
    by_cases hc : H < w.y + w.speed
    · simp [hc, not_le.mpr hc]
    · simp [hc, not_lt.mp hc]

/-- A paused session ignores fast ticks. -/
theorem gameLoop_of_paused (W H : ℚ) (o : TickRand) (s : GameState)
    (h : s.isPaused = true) : gameLoop W H o s = s := by
  simp [gameLoop, h]

/-- A stopped session ignores fast ticks. -/
theorem gameLoop_of_stopped (W H : ℚ) (o : TickRand) (s : GameState)
    (h : s.isRunning = false) : gameLoop W H o s = s := by
  simp [gameLoop, h]

/-- A paused session ignores slow ticks. -/
theorem slowTickBody_of_paused (s : GameState) (h : s.isPaused = true) :
    slowTickBody s = s := by
  simp [slowTickBody, h]

/-- A stopped session ignores slow ticks. -/
theorem slowTickBody_of_stopped (s : GameState) (h : s.isRunning = false) :
    slowTickBody s = s := by
  simp [slowTickBody, h]

/-- A paused or stopped session ignores pointer clicks. -/
theorem handleGameClick_of_inactive (px py : ℚ) (s : GameState)
    (h : s.isRunning = false ∨ s.isPaused = true) :
    handleGameClick px py s = s := by
  rcases h with h | h <;> simp [handleGameClick, h]

/-- Ticks of either schedule leave a paused state untouched. -/
theorem applyTicks_of_paused (W H : ℚ) (ticks : List GTick) (s : GameState)
    (h : s.isPaused = true) : applyTicks W H ticks s = s := by
  induction ticks with
  | nil => rfl
  | cons t ts ih =>
    cases t with
    | fastT o => rw [applyTicks, gameLoop_of_paused W H o s h, ih]
    | slowT => rw [applyTicks, slowTickBody_of_paused s h, ih]

/-! ## Claim C2 -/

/-- C2 counterexample: after Stop from a freshly started session, the slow
countdown trigger is still armed — Stop cancels only the fast trigger, so
"both periodic triggers are cancelled outright" fails. -/
theorem stop_leaves_slow_trigger_armed :
    (stopWaterGame (startWaterGame initState)).slowArmed = true ∧
    (stopWaterGame (startWaterGame initState)).fastArmed = false := by
  decide

/-- C2 (amended): Stop/Close cancels the fast trigger and clears the running
flag; the slow trigger survives untouched, but after Stop both tick bodies
are guarded no-ops, so neither schedule can mutate session state until the
next Start. -/
theorem stop_cancels_fast_and_freezes_ticks (W H px py : ℚ) (o : TickRand)
    (s : GameState) :
    (stopWaterGame s).fastArmed = false ∧
    (stopWaterGame s).slowArmed = s.slowArmed ∧
    (stopWaterGame s).isRunning = false ∧
    gameLoop W H o (stopWaterGame s) = stopWaterGame s ∧
    slowTickBody (stopWaterGame s) = stopWaterGame s ∧
    handleGameClick px py (stopWaterGame s) = stopWaterGame s := by
  refine ⟨rfl, rfl, rfl, ?_, ?_, ?_⟩
  · exact gameLoop_of_stopped W H o _ rfl
  · exact slowTickBody_of_stopped _ rfl
  · exact handleGameClick_of_inactive px py _ (Or.inl rfl)

/-! ## Claim C3 -/

/-- C3 counterexample: in the Ended state reached by running a session to
its end, PauseToggle is not a no-op — it flips the paused flag. -/
theorem pauseToggle_not_noop_when_ended :
    status (endWaterGame (startWaterGame initState)) = Status.ended ∧
    pauseWaterGame (endWaterGame (startWaterGame initState)) ≠
      endWaterGame (startWaterGame initState) := by
  decide

/-- C3 (amended): PauseToggle unconditionally flips the paused flag in every
state; since it never touches `isRunning` (or the ghost `ended` flag), it
flips Running ⇄ Paused, and from Idle or Ended the status classification is
unchanged even though the session's paused flag is mutated. -/
theorem pauseToggle_flips_unconditionally (s : GameState) :
    pauseWaterGame s = { s with isPaused := !s.isPaused } ∧
    status (pauseWaterGame s) =
      (match status s with
       | Status.running => Status.paused
       | Status.paused => Status.running
       | st => st) := by
  refine ⟨rfl, ?_⟩
  rcases s with ⟨run, pau, _, _, _, _, _, _, _, en⟩
  cases run <;> cases pau <;> cases en <;> rfl

/-! ## Claim C6 -/

set_option maxRecDepth 4000 in
/-- C6: from a freshly started session (`timeLeft = 60`, Running, never
paused), 60 slow ticks reach `timeLeft = 0` with status Ended and the slow
trigger disarmed, and a 61st slow tick has no further effect. -/
theorem countdown_sixty_ticks_ends :
    (slowTickBody^[60] (startWaterGame initState)).timeLeft = 0 ∧
    status (slowTickBody^[60] (startWaterGame initState)) = Status.ended ∧
    (slowTickBody^[60] (startWaterGame initState)).slowArmed = false ∧
    slowTickBody^[61] (startWaterGame initState) =
      slowTickBody^[60] (startWaterGame initState) := by
  decide

/-! ## Claim C8 -/

/-- C8: a Mover pass (`updateDrops` then `updateWaste`) removes exactly the
entities moved past the bottom in that same tick; each removed Collectible
costs `waterLevel` exactly 2 while `score` is untouched, and removed
Hazards have no side effect on `waterLevel` or `score`. -/
theorem mover_boundary_effects (H : ℚ) (s : GameState) :
    (updateDrops H s).score = s.score ∧
    (updateDrops H s).waterLevel =
      s.waterLevel -
        2 * ((s.drops.countP fun d => decide (H < d.y + d.speed)) : ℤ) ∧
    (updateDrops H s).drops =
      (s.drops.map fun d => { d with y := d.y + d.speed }).filter
        (fun d => decide (d.y ≤ H)) ∧
    (∀ d ∈ (updateDrops H s).drops, d.y ≤ H) ∧
    (updateWaste H s).waterLevel = s.waterLevel ∧
    (updateWaste H s).score = s.score ∧
    (updateWaste H s).waste =
      (s.waste.map fun w => { w with y := w.y + w.speed }).filter
        (fun w => decide (w.y ≤ H)) := by
  refine ⟨rfl, ?_, ?_, ?_, rfl, rfl, ?_⟩
  · simp [updateDrops, processDrops_eq]
  · simp [updateDrops, processDrops_eq]
  · intro d hd
    simp only [updateDrops, processDrops_eq] at hd
    simpa using (List.mem_filter.mp hd).2
  · simp [updateWaste, processWaste_eq]

/-! ## Claim C9 -/

/-- C9: PauseToggle while Running freezes the session — any interleaving of
fast and slow tick bodies leaves the paused state exactly as it was (in
particular entities, score, timeRemaining and resourceLevel), and a second
PauseToggle restores precisely the state at the moment of pausing. -/
theorem pause_freezes_all_ticks (W H : ℚ) (s : GameState) (ticks : List GTick)
    (hrun : s.isRunning = true) (hpause : s.isPaused = false) :
    applyTicks W H ticks (pauseWaterGame s) = pauseWaterGame s ∧
    pauseWaterGame (pauseWaterGame s) = s := by
  constructor
  · exact applyTicks_of_paused W H ticks _ (by simp [pauseWaterGame, hpause])
  · rcases s with ⟨run, pau, _, _, _, _, _, _, _, _⟩
    simp [pauseWaterGame]

/-- C9 witness: a freshly started session, paused, then driven through a
fast tick, a slow tick and another fast tick: nothing changes, and a second
toggle restores the pre-pause state. -/
theorem pause_freezes_all_ticks_witness :
    (startWaterGame initState).isRunning = true ∧
    (startWaterGame initState).isPaused = false ∧
    (applyTicks 800 600 [GTick.fastT ⟨none, none⟩, GTick.slowT,
        GTick.fastT ⟨none, none⟩] (pauseWaterGame (startWaterGame initState)) =
      pauseWaterGame (startWaterGame initState) ∧
     pauseWaterGame (pauseWaterGame (startWaterGame initState)) =
      startWaterGame initState) :=
  ⟨rfl, rfl, pause_freezes_all_ticks 800 600 (startWaterGame initState)
    [GTick.fastT ⟨none, none⟩, GTick.slowT, GTick.fastT ⟨none, none⟩] rfl rfl⟩


/-! ## Claim C4 -/

/-- C4 counterexample: a drop spawned with all draws 0 has size 15 but
y = −20, so the spawn position is NOT `y = −size` (the source uses the
constants 20/30, not the entity's own sampled size). -/
theorem spawn_y_is_constant_not_size :
    (spawnWaterDrop 800 ⟨0, 0, 0, 0⟩).y ≠ -(spawnWaterDrop 800 ⟨0, 0, 0, 0⟩).size := by
  simp only [spawnWaterDrop, ne_eq]
  norm_num

/-- C4 (amended): for in-range draws, a spawned Collectible has
`x ∈ [0, fieldWidth − 20]` and `y = −20`, and a spawned Hazard has
`x ∈ [0, fieldWidth − 30]` and `y = −30` — the offsets are the fixed
constants 20 and 30, not the entity's own sampled size; sizes, speeds,
values and damages lie in their design ranges. -/
theorem spawn_position_ranges (W : ℚ) (rd rw : SpawnRand)
    (hd : rd.valid = true) (hw : rw.valid = true) (hW : 30 ≤ W) :
    (0 ≤ (spawnWaterDrop W rd).x ∧ (spawnWaterDrop W rd).x ≤ W - 20 ∧
     (spawnWaterDrop W rd).y = -20 ∧
     15 ≤ (spawnWaterDrop W rd).size ∧ (spawnWaterDrop W rd).size < 25 ∧
     2 ≤ (spawnWaterDrop W rd).speed ∧ (spawnWaterDrop W rd).speed < 5 ∧
     5 ≤ (spawnWaterDrop W rd).value ∧ (spawnWaterDrop W rd).value ≤ 14) ∧
    (0 ≤ (spawnWaste W rw).x ∧ (spawnWaste W rw).x ≤ W - 30 ∧
     (spawnWaste W rw).y = -30 ∧
     20 ≤ (spawnWaste W rw).size ∧ (spawnWaste W rw).size < 35 ∧
     1 ≤ (spawnWaste W rw).speed ∧ (spawnWaste W rw).speed < 3 ∧
     10 ≤ (spawnWaste W rw).damage ∧ (spawnWaste W rw).damage ≤ 24) := by
  simp only [SpawnRand.valid, decide_eq_true_eq] at hd hw
  obtain ⟨hd1, hd1', hd2, hd2', hd3, hd3', hd4, hd4'⟩ := hd
  obtain ⟨hw1, hw1', hw2, hw2', hw3, hw3', hw4, hw4'⟩ := hw
  have hfd0 : (0 : ℤ) ≤ (rd.r4 * 10).floor := by
    rw [ratFloor_eq_intFloor]
    exact Int.floor_nonneg.mpr (by positivity)
  have hfd9 : (rd.r4 * 10).floor ≤ 9 := by
    rw [ratFloor_eq_intFloor]
    have : ⌊(rd.r4 * 10 : ℚ)⌋ < (10 : ℤ) :=
      Int.floor_lt.mpr (by push_cast; nlinarith)
    omega
  have hfw0 : (0 : ℤ) ≤ (rw.r4 * 15).floor := by
    rw [ratFloor_eq_intFloor]
    exact Int.floor_nonneg.mpr (by positivity)
  have hfw14 : (rw.r4 * 15).floor ≤ 14 := by
    rw [ratFloor_eq_intFloor]
    have : ⌊(rw.r4 * 15 : ℚ)⌋ < (15 : ℤ) :=
      Int.floor_lt.mpr (by push_cast; nlinarith)
    omega
  simp only [spawnWaterDrop, spawnWaste]
  refine ⟨⟨?_, ?_, trivial, ?_, ?_, ?_, ?_, ?_, ?_⟩, ⟨?_, ?_, trivial, ?_, ?_, ?_, ?_, ?_, ?_⟩⟩
  · exact mul_nonneg hd1 (by linarith)
  · calc rd.r1 * (W - 20) ≤ 1 * (W - 20) :=
        mul_le_mul_of_nonneg_right (le_of_lt hd1') (by linarith)
      _ = W - 20 := one_mul _
  · nlinarith
  · nlinarith
  · nlinarith
  · nlinarith
  · omega
  · omega
  · exact mul_nonneg hw1 (by linarith)
  · calc rw.r1 * (W - 30) ≤ 1 * (W - 30) :=
        mul_le_mul_of_nonneg_right (le_of_lt hw1') (by linarith)
      _ = W - 30 := one_mul _
  · nlinarith
  · nlinarith
  · nlinarith
  · nlinarith
  · omega
  · omega

/-- C4 amended-claim witness at `W = 800` with all draws 0. -/
theorem spawn_position_ranges_witness :
    SpawnRand.valid ⟨0, 0, 0, 0⟩ = true ∧ (30 : ℚ) ≤ 800 ∧
    (0 ≤ (spawnWaterDrop 800 ⟨0, 0, 0, 0⟩).x ∧
     (spawnWaterDrop 800 ⟨0, 0, 0, 0⟩).x ≤ 800 - 20 ∧
     (spawnWaterDrop 800 ⟨0, 0, 0, 0⟩).y = -20 ∧
     15 ≤ (spawnWaterDrop 800 ⟨0, 0, 0, 0⟩).size ∧
     (spawnWaterDrop 800 ⟨0, 0, 0, 0⟩).size < 25 ∧
     2 ≤ (spawnWaterDrop 800 ⟨0, 0, 0, 0⟩).speed ∧
     (spawnWaterDrop 800 ⟨0, 0, 0, 0⟩).speed < 5 ∧
     5 ≤ (spawnWaterDrop 800 ⟨0, 0, 0, 0⟩).value ∧
     (spawnWaterDrop 800 ⟨0, 0, 0, 0⟩).value ≤ 14) ∧
    (0 ≤ (spawnWaste 800 ⟨0, 0, 0, 0⟩).x ∧
     (spawnWaste 800 ⟨0, 0, 0, 0⟩).x ≤ 800 - 30 ∧
     (spawnWaste 800 ⟨0, 0, 0, 0⟩).y = -30 ∧
     20 ≤ (spawnWaste 800 ⟨0, 0, 0, 0⟩).size ∧
     (spawnWaste 800 ⟨0, 0, 0, 0⟩).size < 35 ∧
     1 ≤ (spawnWaste 800 ⟨0, 0, 0, 0⟩).speed ∧
     (spawnWaste 800 ⟨0, 0, 0, 0⟩).speed < 3 ∧
     10 ≤ (spawnWaste 800 ⟨0, 0, 0, 0⟩).damage ∧
     (spawnWaste 800 ⟨0, 0, 0, 0⟩).damage ≤ 24) := by
  refine ⟨by decide, by norm_num, ?_⟩
  exact spawn_position_ranges 800 ⟨0, 0, 0, 0⟩ ⟨0, 0, 0, 0⟩
    (by decide) (by decide) (by norm_num)

/-! ## Claim C7 -/

/-- C7: in a Running, unpaused session whose most recently spawned drop `d`
is hit by the click (squared-distance form of `sqrt ≤ size`), the click adds
exactly `d.value` to the score, sets the water level to
`min 100 (waterLevel + d.value)`, and removes exactly that drop. -/
theorem collect_hit_effect (s : GameState) (l : List Drop) (d : Drop)
    (px py : ℚ) (hrun : s.isRunning = true) (hpause : s.isPaused = false)
    (hdrops : s.drops = l ++ [d]) (hsize : 0 ≤ d.size)
    (hdist : (px - d.x) ^ 2 + (py - d.y) ^ 2 ≤ d.size ^ 2) :
    handleGameClick px py s =
      { s with score := s.score + d.value,
               waterLevel := min 100 (s.waterLevel + d.value), drops := l } := by
  have hhit : hitDrop px py d = true := by
    simp only [hitDrop, decide_eq_true_eq]
    exact ⟨hsize, hdist⟩
  rw [handleGameClick, hrun, hpause, hdrops,
    findFromEnd_append_last (hitDrop px py) l d hhit]
  rfl

/-- C7 witness: the spec's collect scenario — value 8, size 15, centre
(50, 50), water level 50, click at (50, 50). -/
theorem collect_hit_effect_witness :
    c7State.isRunning = true ∧ c7State.isPaused = false ∧
    c7State.drops = [] ++ [⟨50, 50, 15, 2, 8⟩] ∧
    (0 : ℚ) ≤ (15 : ℚ) ∧
    ((50 : ℚ) - 50) ^ 2 + ((50 : ℚ) - 50) ^ 2 ≤ (15 : ℚ) ^ 2 ∧
    handleGameClick 50 50 c7State =
      { c7State with score := c7State.score + 8,
                     waterLevel := min 100 (c7State.waterLevel + 8),
                     drops := [] } :=
  ⟨rfl, rfl, rfl, by norm_num, by norm_num,
   collect_hit_effect c7State [] ⟨50, 50, 15, 2, 8⟩ 50 50 rfl rfl rfl
     (by norm_num) (by norm_num)⟩

/-! ## Claim C5 -/

/-- C5 counterexample: hitting a Collectible changes BOTH the score and the
resource level in the same `Interact` call, so "changes at most one of
{score, resourceLevel}" fails (the at-most-one-entity part does hold). -/
theorem interact_changes_both_accumulators :
    (handleGameClick 50 50 c5State).score ≠ c5State.score ∧
    (handleGameClick 50 50 c5State).waterLevel ≠ c5State.waterLevel := by
  have hhit : hitDrop 50 50 (⟨50, 50, 15, 2, 8⟩ : Drop) = true := by
    simp only [hitDrop, decide_eq_true_eq]
    norm_num
  have h : handleGameClick 50 50 c5State =
      { c5State with score := c5State.score + 8,
                     waterLevel := min 100 (c5State.waterLevel + 8),
                     drops := [] } :=
    collect_hit_effect c5State [] ⟨50, 50, 15, 2, 8⟩ 50 50 rfl rfl rfl
      (by norm_num) (by norm_num)
  rw [h]
  exact ⟨by decide, by decide⟩

/-- C5 (amended): a single `Interact` removes at most one entity — either it
is a no-op, or it removes the most recent circularly-hit Collectible (no
later Collectible is hit) updating score AND resource level together, or —
only when no Collectible is hit — it removes the most recent square-hit
Hazard, updating the resource level alone. -/
theorem interact_at_most_one_entity (px py : ℚ) (s : GameState) :
    handleGameClick px py s = s ∨
    (∃ l₁ d l₂, s.drops = l₁ ++ d :: l₂ ∧ hitDrop px py d = true ∧
      (∀ e ∈ l₂, hitDrop px py e = false) ∧
      handleGameClick px py s =
        { s with score := s.score + d.value,
                 waterLevel := min 100 (s.waterLevel + d.value),
                 drops := l₁ ++ l₂ }) ∨
    (∃ l₁ w l₂, (∀ e ∈ s.drops, hitDrop px py e = false) ∧
      s.waste = l₁ ++ w :: l₂ ∧ hitWaste px py w = true ∧
      (∀ e ∈ l₂, hitWaste px py e = false) ∧
      handleGameClick px py s =
        { s with waterLevel := s.waterLevel - w.damage,
                 waste := l₁ ++ l₂ }) := by
  by_cases hact : !s.isRunning || s.isPaused
  · left
    rw [handleGameClick, if_pos hact]
  · rcases hfd : findFromEnd (hitDrop px py) s.drops with _ | ⟨d, ds⟩
    · rcases hfw : findFromEnd (hitWaste px py) s.waste with _ | ⟨w, ws⟩
      · left
        rw [handleGameClick, if_neg hact, hfd, hfw]
      · right; right
        obtain ⟨l₁, l₂, hsplit, hws, hhit, hfail⟩ :=
          findFromEnd_some (hitWaste px py) s.waste w ws hfw
        refine ⟨l₁, w, l₂, findFromEnd_none (hitDrop px py) s.drops hfd,
          hsplit, hhit, hfail, ?_⟩
        rw [handleGameClick, if_neg hact, hfd, hfw, hws]
    · right; left
      obtain ⟨l₁, l₂, hsplit, hds, hhit, hfail⟩ :=
        findFromEnd_some (hitDrop px py) s.drops d ds hfd
      refine ⟨l₁, d, l₂, hsplit, hhit, hfail, ?_⟩
      rw [handleGameClick, if_neg hact, hfd, hds]

/-! ## Claim C1 -/

/-- Damage of a spawned Hazard is nonnegative for in-range draws. -/
theorem spawnWaste_damage_nonneg (W : ℚ) (r : SpawnRand) (h : r.valid = true) :
    0 ≤ (spawnWaste W r).damage := by
  simp only [SpawnRand.valid, decide_eq_true_eq] at h
  simp only [spawnWaste]
  have hf : (0 : ℤ) ≤ (r.r4 * 15).floor := by
    rw [ratFloor_eq_intFloor]
    exact Int.floor_nonneg.mpr (mul_nonneg h.2.2.2.2.2.2.1 (by norm_num))
  omega

/-- Every survivor of a `updateWaste` pass is a moved copy of an input
waste item; in particular its damage is unchanged. -/
theorem mem_processWaste_damage {H : ℚ} {l : List Waste} {w : Waste}
    (hw : w ∈ processWaste H l) : ∃ w₀ ∈ l, w.damage = w₀.damage := by
  rw [processWaste_eq] at hw
  obtain ⟨w1, hw1, hw2⟩ := List.mem_map.mp (List.mem_of_mem_filter hw)
  exact ⟨w1, hw1, by rw [← hw2]⟩

/-- One spawn-and-click round of the C1 trace: a fast tick spawns a hazard
(damage 10) just above the top, and a click on it costs 10 water — with no
lower clamp. -/
theorem c1_round (v : ℤ) :
    handleGameClick 10 (-20) (gameLoop 800 600 c1Oracle (c1Run v)) =
      c1Run (v - 10) := by
  have hfloor : ((0 : ℚ) * 15).floor = 0 := by
    rw [ratFloor_eq_intFloor]; norm_num
  have hfloor0 : ((0 : ℚ)).floor = 0 := by
    rw [ratFloor_eq_intFloor]; norm_num
  norm_num [c1Run, c1Oracle, gameLoop, updateDrops, updateWaste, processDrops,
    processWaste, handleGameClick, findFromEnd, hitDrop, hitWaste, spawnWaste,
    hfloor, hfloor0]

/-- C1 counterexample: a reachable state (start, then eleven rounds of
hazard spawn + hazard click) has `waterLevel = -10 < 0`: `resourceLevel` is
not clamped into `[0, 100]` — hazard hits and missed-drop penalties are
unclamped subtractions. -/
theorem water_level_goes_negative :
    ∃ s, Reachable 800 600 s ∧ ¬ (0 ≤ s.waterLevel ∧ s.waterLevel ≤ 100) := by
  have hv : c1Oracle.valid = true := by decide
  have hstart : startWaterGame initState = c1Run 100 := by decide
  have step : ∀ v : ℤ, Reachable 800 600 (c1Run v) →
      Reachable 800 600 (c1Run (v - 10)) := by
    intro v h
    have h2 := Reachable.click 10 (-20) (Reachable.fast c1Oracle h rfl hv)
    rwa [c1_round] at h2
  have h0 : Reachable 800 600 (c1Run 100) := hstart ▸ Reachable.start Reachable.init
  have h11 := step _ (step _ (step _ (step _ (step _ (step _ (step _ (step _
    (step _ (step _ (step _ h0))))))))))
  exact ⟨_, h11, by decide⟩

/-- Invariant used for the amended C1: along every reachable state the water
level never exceeds 100 (the only increase is `min 100 (· + value)`), and
every live hazard carries nonnegative damage. -/
theorem c1_invariant {W H : ℚ} {s : GameState} (h : Reachable W H s) :
    s.waterLevel ≤ 100 ∧ ∀ w ∈ s.waste, 0 ≤ w.damage := by
  induction h with
  | init =>
    refine ⟨by norm_num [initState], ?_⟩
    intro w hw
    simp [initState] at hw
  | @start s h ih =>
    rw [startWaterGame]
    by_cases hr : s.isRunning
    · rw [if_pos hr]; exact ih
    · rw [if_neg hr]
      refine ⟨by norm_num, ?_⟩
      intro w hw
      simp at hw
  | @pause s h ih => exact ih
  | @stop s h ih => exact ih
  | @fast s o h harm hval ih =>
    by_cases hact : !s.isRunning || s.isPaused
    · rw [gameLoop, if_pos hact]; exact ih
    · rw [gameLoop, if_neg hact]
      rcases o with ⟨od, ow⟩
      have hwl : ∀ s2 : GameState, s2.waterLevel ≤ 100 →
          (updateWaste H (updateDrops H s2)).waterLevel ≤ 100 := by
        intro s2 h2
        simp only [updateWaste, updateDrops]
        omega
      have hwa : ∀ s2 : GameState, (∀ w ∈ s2.waste, 0 ≤ w.damage) →
          ∀ w ∈ (updateWaste H (updateDrops H s2)).waste, 0 ≤ w.damage := by
        intro s2 h2 w hw
        simp only [updateWaste, updateDrops] at hw
        obtain ⟨w0, hw0, hd⟩ := mem_processWaste_damage hw
        exact hd ▸ h2 w0 hw0
      have hvw : ∀ r, ow = some r → 0 ≤ (spawnWaste W r).damage := by
        intro r hr
        subst hr
        simp only [TickRand.valid, Bool.and_eq_true] at hval
        exact spawnWaste_damage_nonneg W r hval.2
      cases od <;> cases ow <;>
        refine ⟨hwl _ (by simpa using ih.1), hwa _ ?_⟩
      · simpa using ih.2
      · rename_i r
        intro w hw
        simp only at hw
        rcases List.mem_append.mp hw with hw | hw
        · exact ih.2 w hw
        · rw [List.mem_singleton.mp hw]
          exact hvw r rfl
      · simpa using ih.2
      · rename_i rd r
        intro w hw
        simp only at hw
        rcases List.mem_append.mp hw with hw | hw
        · exact ih.2 w hw
        · rw [List.mem_singleton.mp hw]
          exact hvw r rfl
  | @slow s h harm ih =>
    by_cases hact : !s.isRunning || s.isPaused
    · rw [slowTickBody, if_pos hact]; exact ih
    · rw [slowTickBody, if_neg hact]
      by_cases ht : ({ s with timeLeft := s.timeLeft - 1 } : GameState).timeLeft ≤ 0
      · rw [if_pos ht]; exact ih
      · rw [if_neg ht]; exact ih
  | @click s px py h ih =>
    by_cases hact : !s.isRunning || s.isPaused
    · rw [handleGameClick, if_pos hact]; exact ih
    · rw [handleGameClick, if_neg hact]
      rcases hfd : findFromEnd (hitDrop px py) s.drops with _ | ⟨d, ds⟩
      · rcases hfw : findFromEnd (hitWaste px py) s.waste with _ | ⟨w, ws⟩
        · exact ih
        · obtain ⟨l₁, l₂, hsplit, hws, hhit, hfail⟩ :=
            findFromEnd_some (hitWaste px py) s.waste w ws hfw
          have hwmem : w ∈ s.waste := by rw [hsplit]; simp
          have hdmg : 0 ≤ w.damage := ih.2 w hwmem
          refine ⟨by simp only; omega, ?_⟩
          intro e he
          simp only at he
          rw [hws] at he
          have hemem : e ∈ s.waste := by
            rw [hsplit]
            rcases List.mem_append.mp he with he | he
            · exact List.mem_append.mpr (Or.inl he)
            · exact List.mem_append.mpr (Or.inr (List.mem_cons_of_mem _ he))
          exact ih.2 e hemem
      · refine ⟨by simp only; exact min_le_left _ _, ?_⟩
        intro e he
        simp only at he
        exact ih.2 e he

/-- C1 (amended): on every reachable state the upper clamp does hold —
`resourceLevel ≤ 100` — but the lower bound 0 does not (see the
counterexample): the hazard-hit and missed-drop mutations are unclamped. -/
theorem reachable_waterLevel_le_100 {W H : ℚ} {s : GameState}
    (h : Reachable W H s) : s.waterLevel ≤ 100 :=
  (c1_invariant h).1

/-- C1 amended-claim witness at the initial state. -/
theorem reachable_waterLevel_le_100_witness :
    Reachable 800 600 initState ∧ initState.waterLevel ≤ 100 :=
  ⟨@Reachable.init 800 600, reachable_waterLevel_le_100 (@Reachable.init 800 600)⟩

/-! ## Claim C10 -/

/-- C10: only the slow countdown tick can terminate the session — fast
ticks, pointer interactions and PauseToggle never change `isRunning` or the
game-over flag, the slow tick ends the session exactly when it decrements
`timeLeft` to `≤ 0` while Running and unpaused, and the water level plays
no part in any guard: entity processing by fast ticks and clicks is
identical no matter how low (`waterLevel := v`, e.g. negative) the resource
is. -/
theorem end_only_by_countdown_exhaustion (W H px py : ℚ) (o : TickRand)
    (v : ℤ) (s : GameState) :
    (gameLoop W H o s).isRunning = s.isRunning ∧
    (gameLoop W H o s).ended = s.ended ∧
    (handleGameClick px py s).isRunning = s.isRunning ∧
    (handleGameClick px py s).ended = s.ended ∧
    (pauseWaterGame s).isRunning = s.isRunning ∧
    (pauseWaterGame s).ended = s.ended ∧
    (slowTickBody s).ended =
      (s.ended || (s.isRunning && !s.isPaused && decide (s.timeLeft - 1 ≤ 0))) ∧
    (slowTickBody s).isRunning =
      (s.isRunning && !(!s.isPaused && decide (s.timeLeft - 1 ≤ 0))) ∧
    (gameLoop W H o { s with waterLevel := v }).drops = (gameLoop W H o s).drops ∧
    (gameLoop W H o { s with waterLevel := v }).waste = (gameLoop W H o s).waste ∧
    (gameLoop W H o { s with waterLevel := v }).isRunning = s.isRunning ∧
    (handleGameClick px py { s with waterLevel := v }).drops =
      (handleGameClick px py s).drops ∧
    (handleGameClick px py { s with waterLevel := v }).waste =
      (handleGameClick px py s).waste ∧
    (handleGameClick px py { s with waterLevel := v }).score =
      (handleGameClick px py s).score := by
  obtain ⟨od, ow⟩ := o
  rcases s with ⟨run, pau, wl, sc, tl, dr, wa, fa, sa, en⟩
  rcases hfd : findFromEnd (hitDrop px py) dr with _ | ⟨d, ds⟩ <;>
    rcases hfw : findFromEnd (hitWaste px py) wa with _ | ⟨w, ws⟩ <;>
    by_cases ht : tl - 1 ≤ 0 <;>
    cases run <;> cases pau <;> cases od <;> cases ow <;>
    simp [gameLoop, handleGameClick, pauseWaterGame, slowTickBody,
      endWaterGame, stopWaterGame, updateDrops, updateWaste, hfd, hfw, ht]
